import Mathlib

/-
  Verification of the CrossSock session-layer library (CAVE-Lab/CrossSock)
  against its natural-language specification.

  The development shallow-embeds the packet codec (CrossPack.h), the relevant
  parts of the client state machine (CrossClient.h) and of the server state
  machine (CrossServer.h), and the socket-address equality of CrossSock.h.

  Modelling conventions:
  * machine integers are Nat (bit patterns) with explicit `% 2^w` where the
    C++ arithmetic wraps; the 32-bit signed checksum accumulator is modelled
    as a Nat bit pattern updated by wrapping two's-complement addition;
  * byte buffers are `List Nat` (each element one byte);
  * the wire image is little-endian, which is what the source produces on
    every host (on big-endian hosts it byte-swaps into little-endian);
  * wall-clock timers are modelled by explicit "elapsed" fields advanced by
    the environment, and C `double`/`float` quantities are modelled as exact
    rationals (so IEEE rounding is idealized away); the 4-byte encoding of
    floats inside packet payloads is kept abstract via `floatDec`
    parameters;
  * event handlers (CrossEvent callbacks) are modelled as emitted event
    values: a function "fires an event" when the event value appears in the
    returned event list (the C++ only invokes a handler when one is
    registered; the model describes the registered case).
-/

set_option maxHeartbeats 1000000

/-!  ## Byte-level helpers  -/

/-- Byte `i` of a buffer (reads past the end give 0; the embedded code only
reads in bounds, mirroring the `memcpy` bounds checks of the source). -/
def byteAt (l : List Nat) (i : Nat) : Nat := (l[i]?).getD 0

/-- Little-endian image of a 16-bit value, as written by `memcpy` of a
`CrossPackPayloadLen`/`CrossPackDataID` on a little-endian host. -/
def le16 (n : Nat) : List Nat := [n % 256, n / 256 % 256]

/-- Little-endian image of a 32-bit value, as written by `memcpy` of a
`CrossPackChecksum`/`CrossClientID` on a little-endian host. -/
def le32 (n : Nat) : List Nat :=
  [n % 256, n / 256 % 256, n / 65536 % 256, n / 16777216 % 256]

/-- Decode a little-endian 16-bit value at offset `i`. -/
def le16At (l : List Nat) (i : Nat) : Nat := byteAt l i + 256 * byteAt l (i + 1)

/-- Decode a little-endian 32-bit value at offset `i`. -/
def le32At (l : List Nat) (i : Nat) : Nat :=
  byteAt l i + 256 * byteAt l (i + 1) + 65536 * byteAt l (i + 2) +
    16777216 * byteAt l (i + 3)

/-- CrossSysUtil::CheckBit: `((inNumber >> inX) & 1) != 0`. -/
def checkBit (n x : Nat) : Bool := (n >>> x) &&& 1 != 0

/-- CrossSysUtil::SetBit on an 8-bit flag byte: `inNumber | (1 << inX)`. -/
def setBit (n x : Nat) : Nat := n ||| (1 <<< x)

/-- CrossSysUtil::ClearBit on an 8-bit flag byte: `inNumber & ~(1 << inX)`
(the complement is taken in the 8-bit width of `CrossPackFlag`). -/
def clearBit (n x : Nat) : Nat := n &&& (255 ^^^ (1 <<< x))

/-!  ## Packet codec (CrossPack.h)  -/

/-- CrossPackHeader: dataID (u16), payloadSize (u16), packFlags (one byte).
`sizeof(CrossPackHeader)` is 6 on the source's platforms (2+2+1 padded). -/
structure CrossPackHeader where
  dataID : Nat
  payloadSize : Nat
  packFlags : Nat
deriving DecidableEq, Repr

/-- CrossPackFooter: checksum (32-bit, stored as its bit pattern) and
senderID (u32). -/
structure CrossPackFooter where
  checksum : Nat
  senderID : Nat
deriving DecidableEq, Repr

/-- A CrossPack: header, footer and the payload bytes. -/
structure CrossPack where
  header : CrossPackHeader
  footer : CrossPackFooter
  payload : List Nat
deriving DecidableEq, Repr

/-- CrossPack::GetHeaderSize(): `sizeof(CrossPackHeader)` = 6. -/
def headerSize : Nat := 6

/-- CrossPack::MAX_PAYLOAD_BYTES = 1500 - sizeof(header) - sizeof(footer). -/
def maxPayloadBytes : Nat := 1500 - 6 - 8

/-- CrossPack::GetFooterLength: checksum takes 4 bytes when flag bit 0 is
set, senderID 4 bytes when flag bit 1 is set. -/
def getFooterLength (h : CrossPackHeader) : Nat :=
  (if checkBit h.packFlags 0 then 4 else 0) +
    (if checkBit h.packFlags 1 then 4 else 0)

/-- CrossPack::GetPacketSize(): payload + header + footer. -/
def getPacketSize (p : CrossPack) : Nat :=
  p.header.payloadSize + headerSize + getFooterLength p.header

/-- CrossPack::PeakHeader: dataID at offset 0, payloadSize at offset 2,
packFlags at offset 4 (offset 5 is struct padding and is ignored). -/
def peakHeader (d : List Nat) : CrossPackHeader :=
  ⟨le16At d 0, le16At d 2, byteAt d 4⟩

/-- CrossPack::PeakFooter: reads the footer fields indicated by the header
flags, checksum first then senderID; absent fields keep the constructor
value 0. -/
def peakFooter (d : List Nat) (h : CrossPackHeader) : CrossPackFooter :=
  let start := headerSize + h.payloadSize
  let cs := if checkBit h.packFlags 0 then le32At d start else 0
  let off := if checkBit h.packFlags 0 then 4 else 0
  let sid := if checkBit h.packFlags 1 then le32At d (start + off) else 0
  ⟨cs, sid⟩

/-- CrossPack::Serialize: header fields at offsets 0/2/4, one padding byte
at offset 5 (never written by Serialize, hence arbitrary here), the payload,
then checksum and senderID as dictated by the flags. -/
def serialize (p : CrossPack) (pad : Nat) : List Nat :=
  le16 p.header.dataID ++ le16 p.header.payloadSize ++
    [p.header.packFlags, pad] ++ p.payload ++
    (if checkBit p.header.packFlags 0 then le32 p.footer.checksum else []) ++
    (if checkBit p.header.packFlags 1 then le32 p.footer.senderID else [])

/-- Decoding a received byte image the way the receive pipelines do:
PeakHeader, then PeakFooter according to the header flags, then the payload
bytes (the deserialization constructor keeps the buffer as payload storage,
with the payload at offset `headerSize`). -/
def decodePack (d : List Nat) : CrossPack :=
  let h := peakHeader d
  ⟨h, peakFooter d h, (d.drop headerSize).take h.payloadSize⟩

/-- Value of a payload byte as the C `char` (signed 8-bit) the checksum loop
adds. -/
def signedByte (b : Nat) : Int :=
  if b % 256 < 128 then (b % 256 : Int) else (b % 256 : Int) - 256

/-- Reduce an integer to the bit pattern of a 32-bit two's-complement
accumulator. -/
def wrap32 (z : Int) : Nat := (z % 4294967296).toNat

/-- One wrapping addition into the 32-bit checksum accumulator. -/
def addWrap (acc : Nat) (v : Int) : Nat := wrap32 ((acc : Int) + v)

/-- CrossPack::CalculateChecksum: starts at 0, adds every payload byte (as a
signed char), then dataID, payloadSize, packFlags (a signed char) and
senderID, each addition wrapping in 32 bits. -/
def calculateChecksum (p : CrossPack) : Nat :=
  addWrap (addWrap (addWrap (addWrap
      (p.payload.foldl (fun acc b => addWrap acc (signedByte b)) 0)
      (p.header.dataID : Int)) (p.header.payloadSize : Int))
    (signedByte p.header.packFlags)) (p.footer.senderID : Int)

/-- The checksum as the specification words it: a single wrapping 32-bit sum
of every payload byte (signed 8-bit) plus dataID plus payloadSize plus flags
plus senderID. -/
def checksumSpec (p : CrossPack) : Nat :=
  wrap32 ((p.payload.map signedByte).sum + (p.header.dataID : Int) +
    (p.header.payloadSize : Int) + signedByte p.header.packFlags +
    (p.footer.senderID : Int))

/-- CrossPack::IsValid. -/
def isValid (p : CrossPack) : Bool :=
  if !(checkBit p.header.packFlags 0) then true
  else p.footer.checksum == calculateChecksum p

/-- CrossPack::SetPacketFlag (with the finalized guard already lowered, as
in Finalize). -/
def setPacketFlagRaw (flags bit : Nat) (v : Bool) : Nat :=
  if v then setBit flags bit else clearBit flags bit

/-- CrossPack::Finalize: sets flag bits 0 and 1, stores the senderID when
UDP support is requested, then computes the checksum over the updated
packet when a checksum is requested. -/
def finalize (p : CrossPack) (addChecksum addUDPSupport : Bool)
    (inSenderID : Nat) : CrossPack :=
  let f1 := setPacketFlagRaw p.header.packFlags 0 addChecksum
  let f2 := setPacketFlagRaw f1 1 addUDPSupport
  let hdr : CrossPackHeader := { p.header with packFlags := f2 }
  let sid := if addUDPSupport then inSenderID else p.footer.senderID
  let p1 : CrossPack := ⟨hdr, ⟨p.footer.checksum, sid⟩, p.payload⟩
  let chk := if addChecksum then calculateChecksum p1 else p.footer.checksum
  ⟨hdr, ⟨chk, sid⟩, p.payload⟩

/-!  ## Socket addresses (CrossSock.h)  -/

/-- Value of AF_INET. -/
def addressFamilyINET : Nat := 2

/-- Value of AF_INET6 (only its being different from AF_INET matters). -/
def addressFamilyINET6 : Nat := 10

/-- CrossSockAddress: family, raw IPv4 address word, raw port word. -/
structure CrossSockAddressT where
  family : Nat
  addr : Nat
  port : Nat
deriving DecidableEq, Repr

/-- CrossSockAddress::operator==, verbatim from the source:
`(mSockAddr.sa_family == AF_INET && sin_port == other.sin_port) &&
 (GetIP4Ref() == other.GetIP4Ref())`. -/
def addrEq (a b : CrossSockAddressT) : Bool :=
  (a.family == addressFamilyINET && a.port == b.port) && (a.addr == b.addr)

/-!  ## Helper lemmas about bytes and lists  -/

theorem byteAt_append_left {l1 l2 : List Nat} {i : Nat} (h : i < l1.length) :
    byteAt (l1 ++ l2) i = byteAt l1 i := by
  simp [byteAt, List.getElem?_append_left h]

theorem byteAt_append_right {l1 l2 : List Nat} {i : Nat}
    (h : l1.length ≤ i) :
    byteAt (l1 ++ l2) i = byteAt l2 (i - l1.length) := by
  simp [byteAt, List.getElem?_append_right h]

theorem le16_le16At (n : Nat) (hn : n < 65536) : le16At (le16 n) 0 = n := by
  simp [le16, le16At, byteAt]
  omega

theorem le32_le32At (n : Nat) (hn : n < 4294967296) :
    le32At (le32 n) 0 = n := by
  simp [le32, le32At, byteAt]
  omega

/-!  ## C2: checksum and validity  -/

theorem addWrap_wrap32 (z v : Int) : addWrap (wrap32 z) v = wrap32 (z + v) := by
  unfold addWrap wrap32
  omega

theorem foldl_addWrap (l : List Nat) (z : Int) :
    l.foldl (fun acc b => addWrap acc (signedByte b)) (wrap32 z) =
      wrap32 (z + (l.map signedByte).sum) := by
  induction l generalizing z with
  | nil => simp
  | cons b t ih =>
      simp only [List.foldl_cons, addWrap_wrap32, List.map_cons, List.sum_cons]
      rw [ih]
      ring_nf

/-- C2. The computed checksum equals the wrapping two's-complement 32-bit sum
of every payload byte (as a signed 8-bit value) plus dataID plus payloadSize
plus flags (its signed 8-bit value, `packFlags` being a C `char`) plus
senderID; IsValid() returns true when the checksum flag is clear, and
otherwise returns true exactly when the stored footer checksum equals this
recomputed sum. -/
theorem c2_checksum (p : CrossPack) :
    calculateChecksum p = checksumSpec p ∧
    (checkBit p.header.packFlags 0 = false → isValid p = true) ∧
    (checkBit p.header.packFlags 0 = true →
      (isValid p = true ↔ p.footer.checksum = calculateChecksum p)) := by
  refine ⟨?_, ?_, ?_⟩
  · unfold calculateChecksum checksumSpec
    have h0 : (0 : Nat) = wrap32 0 := by rfl
    rw [h0, foldl_addWrap, addWrap_wrap32, addWrap_wrap32, addWrap_wrap32,
      addWrap_wrap32]
    ring_nf
  · intro h
    simp [isValid, h]
  · intro h
    simp [isValid, h]

/-- Witness for C2 at a concrete finalized packet (payload "hi", checksum
flag set): the checksum agrees with the specification formula and the packet
validates. -/
theorem c2_checksum_witness :
    calculateChecksum ⟨⟨7, 2, 1⟩, ⟨219, 0⟩, [104, 105]⟩ =
        checksumSpec ⟨⟨7, 2, 1⟩, ⟨219, 0⟩, [104, 105]⟩ ∧
      isValid ⟨⟨7, 2, 1⟩, ⟨219, 0⟩, [104, 105]⟩ = true :=
  ⟨(c2_checksum ⟨⟨7, 2, 1⟩, ⟨219, 0⟩, [104, 105]⟩).1,
    ((c2_checksum ⟨⟨7, 2, 1⟩, ⟨219, 0⟩, [104, 105]⟩).2.2 (by decide)).mpr
      (by decide)⟩

/-!  ## C1: frame round-trip  -/

/-- C1 (counterexample). The claim "decoding the serialized image yields a
packet with the same checksum and senderID footer fields for every packet,
and every packet finalized with the checksum flag passes is_valid after
decoding" fails: the packet below carries senderID 1 with the sender-id flag
clear (reachable through Finalize(true,true,1); ClearPayload();
Finalize(true,false)), so the wire image omits the senderID, the decoded
packet has senderID 0, and the stored checksum (which sums the stale
senderID) no longer matches the recomputation. -/
theorem c1_counterexample :
    finalize ⟨⟨7, 0, 0⟩, ⟨0, 1⟩, []⟩ true false 0 = ⟨⟨7, 0, 1⟩, ⟨9, 1⟩, []⟩ ∧
    checkBit (7 : Nat) 0 = true ∧
    decodePack (serialize ⟨⟨7, 0, 1⟩, ⟨9, 1⟩, []⟩ 0) ≠ ⟨⟨7, 0, 1⟩, ⟨9, 1⟩, []⟩ ∧
    isValid (decodePack (serialize ⟨⟨7, 0, 1⟩, ⟨9, 1⟩, []⟩ 0)) = false := by
  decide

theorem byteAt_le32 (n : Nat) :
    byteAt (le32 n) 0 = n % 256 ∧ byteAt (le32 n) 1 = n / 256 % 256 ∧
    byteAt (le32 n) 2 = n / 65536 % 256 ∧
    byteAt (le32 n) 3 = n / 16777216 % 256 := by
  simp [le32, byteAt]

/-- C1 (amended). Serialize-then-decode restores dataID, payloadSize, flags
and the payload bytes of every packet; the checksum and senderID footer
fields are restored when their flag bits are set and decode to 0 otherwise
(so full equality holds whenever each absent footer field is 0); and a
packet whose checksum field equals the recomputed checksum (as Finalize with
the checksum flag produces) passes is_valid() after decoding, under those
side conditions. -/
theorem c1_roundTrip (p : CrossPack) (pad : Nat)
    (hd : p.header.dataID < 65536) (hp : p.header.payloadSize < 65536)
    (hl : p.payload.length = p.header.payloadSize)
    (hc : p.footer.checksum < 4294967296)
    (hs : p.footer.senderID < 4294967296)
    (hcz : checkBit p.header.packFlags 0 = true ∨ p.footer.checksum = 0)
    (hsz : checkBit p.header.packFlags 1 = true ∨ p.footer.senderID = 0) :
    decodePack (serialize p pad) = p ∧
    (checkBit p.header.packFlags 0 = true →
      p.footer.checksum = calculateChecksum p →
      isValid (decodePack (serialize p pad)) = true) := by
  obtain ⟨⟨d, ps, fl⟩, ⟨ck, sid⟩, pl⟩ := p
  simp only at hd hp hl hc hs hcz hsz
  have hX :
      serialize ⟨⟨d, ps, fl⟩, ⟨ck, sid⟩, pl⟩ pad =
        [d % 256, d / 256 % 256, ps % 256, ps / 256 % 256, fl, pad] ++
          (pl ++ ((if checkBit fl 0 then le32 ck else []) ++
            (if checkBit fl 1 then le32 sid else []))) := by
    simp [serialize, le16, List.append_assoc]
  have hHdr : peakHeader (serialize ⟨⟨d, ps, fl⟩, ⟨ck, sid⟩, pl⟩ pad) =
      ⟨d, ps, fl⟩ := by
    rw [hX]
    simp [peakHeader, le16At, byteAt]
    omega
  have hPl :
      ((serialize ⟨⟨d, ps, fl⟩, ⟨ck, sid⟩, pl⟩ pad).drop headerSize).take ps = pl := by
    rw [hX]
    have h6 :
        ([d % 256, d / 256 % 256, ps % 256, ps / 256 % 256, fl, pad] ++
          (pl ++ ((if checkBit fl 0 then le32 ck else []) ++
            (if checkBit fl 1 then le32 sid else [])))).drop headerSize =
          pl ++ ((if checkBit fl 0 then le32 ck else []) ++
            (if checkBit fl 1 then le32 sid else [])) := by
      simp [headerSize]
    rw [h6]
    exact List.take_left' hl
  have hfoot : ∀ i, byteAt (serialize ⟨⟨d, ps, fl⟩, ⟨ck, sid⟩, pl⟩ pad)
      (6 + ps + i) =
      byteAt ((if checkBit fl 0 then le32 ck else []) ++
        (if checkBit fl 1 then le32 sid else [])) i := by
    intro i
    rw [hX]
    rw [byteAt_append_right (by simp only [List.length_cons, List.length_nil]; omega)]
    have e1 : 6 + ps + i -
        ([d % 256, d / 256 % 256, ps % 256, ps / 256 % 256, fl, pad] :
          List Nat).length = ps + i := by
      simp only [List.length_cons, List.length_nil]
      omega
    rw [e1]
    rw [byteAt_append_right (by omega)]
    congr 1
    omega
  have hcs : le32At (serialize ⟨⟨d, ps, fl⟩, ⟨ck, sid⟩, pl⟩ pad) (6 + ps) =
      le32At ((if checkBit fl 0 then le32 ck else []) ++
        (if checkBit fl 1 then le32 sid else [])) 0 := by
    unfold le32At
    have h0 := hfoot 0
    have h1 := hfoot 1
    have h2 := hfoot 2
    have h3 := hfoot 3
    simp only [Nat.add_zero] at h0
    rw [h0, h1, h2, h3]
  have hsd : le32At (serialize ⟨⟨d, ps, fl⟩, ⟨ck, sid⟩, pl⟩ pad) (6 + ps + 4) =
      le32At ((if checkBit fl 0 then le32 ck else []) ++
        (if checkBit fl 1 then le32 sid else [])) 4 := by
    unfold le32At
    have h4 := hfoot 4
    have h5 := hfoot 5
    have h6 := hfoot 6
    have h7 := hfoot 7
    have e5 : 6 + ps + 4 + 1 = 6 + ps + 5 := by omega
    have e6 : 6 + ps + 4 + 2 = 6 + ps + 6 := by omega
    have e7 : 6 + ps + 4 + 3 = 6 + ps + 7 := by omega
    rw [e5, e6, e7, h4, h5, h6, h7]
  have hFt : peakFooter (serialize ⟨⟨d, ps, fl⟩, ⟨ck, sid⟩, pl⟩ pad)
      ⟨d, ps, fl⟩ = ⟨ck, sid⟩ := by
    cases h0 : checkBit fl 0 <;> cases h1 : checkBit fl 1
    · simp only [h0, h1, Bool.false_eq_true, false_or] at hcz hsz
      simp [peakFooter, h0, h1, hcz, hsz]
    · simp only [h0, h1, Bool.false_eq_true, false_or] at hcz
      simp only [h0, h1, List.nil_append, Bool.false_eq_true, if_false,
        if_true] at hcs
      simp [peakFooter, h0, h1, headerSize, CrossPackFooter.mk.injEq]
      refine ⟨hcz.symm, ?_⟩
      rw [hcs]
      simp [le32At, le32, byteAt]
      omega
    · simp only [h0, h1, Bool.false_eq_true, false_or] at hsz
      simp only [h0, h1, List.append_nil, Bool.false_eq_true, if_false,
        if_true] at hcs
      simp [peakFooter, h0, h1, headerSize, CrossPackFooter.mk.injEq]
      refine ⟨?_, hsz.symm⟩
      rw [hcs]
      simp [le32At, le32, byteAt]
      omega
    · simp only [h0, h1, if_true] at hcs hsd
      simp [peakFooter, h0, h1, headerSize, CrossPackFooter.mk.injEq]
      constructor
      · rw [hcs]
        simp [le32At, le32, byteAt]
        omega
      · rw [hsd]
        simp [le32At, le32, byteAt]
        omega
  have hEq : decodePack (serialize ⟨⟨d, ps, fl⟩, ⟨ck, sid⟩, pl⟩ pad) =
      ⟨⟨d, ps, fl⟩, ⟨ck, sid⟩, pl⟩ := by
    simp only [decodePack]
    rw [hHdr]
    rw [hFt]
    simp only [CrossPack.mk.injEq, and_true, true_and]
    exact hPl
  refine ⟨hEq, ?_⟩
  intro hb0 hchk
  simp only at hb0 hchk
  rw [hEq]
  simp [isValid, hb0]
  exact hchk

/-- Witness for C1 at a concrete finalized packet: checksum and sender-id
flags both set, checksum correct for senderID 9 and payload [104, 105]. -/
theorem c1_roundTrip_witness :
    decodePack (serialize ⟨⟨7, 2, 3⟩, ⟨230, 9⟩, [104, 105]⟩ 0) =
        ⟨⟨7, 2, 3⟩, ⟨230, 9⟩, [104, 105]⟩ ∧
      isValid (decodePack (serialize ⟨⟨7, 2, 3⟩, ⟨230, 9⟩, [104, 105]⟩ 0)) =
        true := by
  have h := c1_roundTrip ⟨⟨7, 2, 3⟩, ⟨230, 9⟩, [104, 105]⟩ 0 (by decide)
    (by decide) (by decide) (by decide) (by decide) (Or.inl (by decide))
    (Or.inl (by decide))
  exact ⟨h.1, h.2 (by decide) (by decide)⟩

/-!  ## C8: policy-list key equality  -/

/-- C8 (counterexample). The claim "the equality operator compares all three
components and returns true iff all three agree" is false: an AF_INET
address compares equal to an AF_INET6 address with the same raw IPv4 word
and port, because the source only tests the left operand's family against
AF_INET and never compares the two families. -/
theorem c8_counterexample :
    addrEq ⟨addressFamilyINET, 5, 80⟩ ⟨addressFamilyINET6, 5, 80⟩ = true ∧
    (⟨addressFamilyINET, 5, 80⟩ : CrossSockAddressT).family ≠
      (⟨addressFamilyINET6, 5, 80⟩ : CrossSockAddressT).family := by
  decide

/-- C8 (amended). CrossSockAddress::operator== returns true iff the left
operand's address family is AF_INET and the two addresses agree on port and
on the raw IPv4 address word; the right operand's family is never
consulted. -/
theorem c8_addrEq (a b : CrossSockAddressT) :
    addrEq a b = true ↔
      (a.family = addressFamilyINET ∧ a.port = b.port ∧ a.addr = b.addr) := by
  simp [addrEq, and_assoc]

/-!  ## Client state machine (CrossClient.h)  -/

/-- CrossClientState. -/
inductive CrossClientStateT
  | needsToConnect
  | connecting
  | receivingID
  | receivingDataList
  | reconnecting
  | requestingID
  | connected
deriving DecidableEq, Repr

/-- NetTransError. -/
inductive NetTransErrorT
  | noTransmit
  | clientNotFound
  | streamNotBound
  | clientNotConnected
  | invalidChecksum
  | invalidDataID
  | invalidPayloadSize
deriving DecidableEq, Repr

/-- Numeric values of the NetTransError enum. -/
def netTransErrorCode : NetTransErrorT → Int
  | .noTransmit => -1
  | .clientNotFound => -2
  | .streamNotBound => -3
  | .clientNotConnected => -4
  | .invalidChecksum => -5
  | .invalidDataID => -6
  | .invalidPayloadSize => -7

/-- NetTransMethod. -/
inductive NetTransMethodT
  | tcp
  | udp
deriving DecidableEq, Repr

/-- CrossClientProperties (only the fields the embedded operations read). -/
structure CrossClientProperties where
  allowUDPPackets : Bool
  shouldAttemptReconnect : Bool
  alivenessTestDelay : ℚ
deriving DecidableEq, Repr

/-- Default-constructed client properties. -/
def defaultClientProperties : CrossClientProperties := ⟨true, true, 1000⟩

/-- CROSS_SOCK_MAX_TIMEOUT. -/
def crossSockMaxTimeout : ℚ := 999999

/-- CROSS_SOCK_TIMEOUT_FACTOR (the double constant 3.1, idealized as the
exact rational 31/10). -/
def timeoutFactor : ℚ := 31 / 10

/-- Observable effects of the client: fired events and sent packets. -/
inductive CEvent
  | handshakeEv
  | connectEv
  | readyEv
  | disconnectEv
  | attemptReconnectEv
  | reconnectEv
  | failedReconnectEv
  | receiveEv (dataID : Nat) (method : NetTransMethodT)
  | transErrorEv (packPresent : Bool) (method : NetTransMethodT)
      (err : NetTransErrorT)
  | sendCtl (dataID : Nat) (idPayload : Option Nat)
  | sendAliveness (v : ℚ)
deriving DecidableEq, Repr

/-- Client state: the session state machine plus the timer quantities
(timers are "time since last SetToNow", advanced by the environment). -/
structure ClientSt where
  clientState : CrossClientStateT
  clientID : Nat
  ping : ℚ
  timeoutElapsed : ℚ
  timeoutDelay : ℚ
  alivenessElapsed : ℚ
  dataEvents : List (List Nat × Nat)
  hasServerSocket : Bool
  streamIsBound : Bool
  props : CrossClientProperties
deriving DecidableEq, Repr

/-- The state gate of SendToServer / StreamToServer. -/
def sendGated (st : CrossClientStateT) : Bool :=
  st == CrossClientStateT.needsToConnect || st == CrossClientStateT.connecting
    || st == CrossClientStateT.reconnecting

/-- CrossClient::SendToServer: returns CLIENT_NOT_CONNECTED in the gated
states, otherwise the socket send result (the would-block retry loop ends
with some socket result, supplied here as `sockResult`). -/
def sendToServer (st : CrossClientStateT) (sockResult : Int) : Int :=
  if sendGated st then netTransErrorCode .clientNotConnected else sockResult

/-- CrossClient::StreamToServer: same state gate, then STREAM_NOT_BOUND when
the UDP companion socket is unbound, else the socket result. -/
def streamToServer (st : CrossClientStateT) (streamBound : Bool)
    (sockResult : Int) : Int :=
  if sendGated st then netTransErrorCode .clientNotConnected
  else if !streamBound then netTransErrorCode .streamNotBound
  else sockResult

/-- Events produced by an internal SendToServer of a control packet (no send
happens in the gated states). -/
def sendEv (st : CrossClientStateT) (dataID : Nat) (pl : Option Nat) :
    List CEvent :=
  if sendGated st then [] else [CEvent.sendCtl dataID pl]

/-- Events produced by an internal SendToServer of an ALIVENESS packet with
float payload `v`. -/
def sendAliveEv (st : CrossClientStateT) (v : ℚ) : List CEvent :=
  if sendGated st then [] else [CEvent.sendAliveness v]

/-- RemoveFromPayload for a 16-bit value at read cursor `i`: returns 0 and
keeps the cursor when fewer bytes remain. -/
def rdU16 (p : CrossPack) (i : Nat) : Nat × Nat :=
  if p.header.payloadSize < 2 + i then (0, i) else (le16At p.payload i, i + 2)

/-- RemoveFromPayload for a 32-bit value at read cursor `i`. -/
def rdU32 (p : CrossPack) (i : Nat) : Nat × Nat :=
  if p.header.payloadSize < 4 + i then (0, i) else (le32At p.payload i, i + 4)

/-- RemoveFromPayload for a float at read cursor `i`; the meaning of the 4
encoded bytes is abstracted by `floatDec`. -/
def rdF32 (floatDec : List Nat → ℚ) (p : CrossPack) (i : Nat) : ℚ × Nat :=
  if p.header.payloadSize < 4 + i then (0, i)
  else (floatDec ((p.payload.drop i).take 4), i + 4)

/-- RemoveStringFromPayload: a 16-bit length then that many bytes; empty on
a malformed length (the source checks `payloadSize < sizeof(u16)` and then
`payloadSize < length`, and builds a C string, which truncates at the first
NUL byte). -/
def rdString (p : CrossPack) (i : Nat) : List Nat × Nat :=
  if p.header.payloadSize < 2 then ([], i)
  else
    let r := rdU16 p i
    if p.header.payloadSize < r.1 then ([], r.2)
    else if p.header.payloadSize < r.1 + r.2 then ([], r.2)
    else (((p.payload.drop r.2).take r.1).takeWhile (fun b => b ≠ 0), r.2 + r.1)

/-- CrossClient::ResetDataEventIDs plus upsert used by the data-list intake:
update the first event with this name, or append a new one. -/
def upsertFirst : List (List Nat × Nat) → List Nat → Nat →
    List (List Nat × Nat)
  | [], name, dataID => [(name, dataID)]
  | e :: rest, name, dataID =>
      if e.1 = name then (name, dataID) :: rest
      else e :: upsertFirst rest name dataID

/-- CrossClient::Disconnect: sends DISCONNECT when a socket is open (the
send is gated by the current state), closes the sockets, resets the data
event ids, and either enters RECONNECTING (AttemptReconnect and
shouldAttemptReconnect and previously CONNECTED) firing AttemptReconnect, or
enters NEEDS_TO_CONNECT firing Disconnect. -/
def clientDisconnect (s : ClientSt) (attemptReconnect : Bool) :
    ClientSt × List CEvent :=
  if s.clientState ≠ CrossClientStateT.needsToConnect then
    let s0 := { s with dataEvents := s.dataEvents.map (fun (e : List Nat × Nat) => (e.1, 5)) }
    let sendEvs := if s0.hasServerSocket then sendEv s0.clientState 3 none
      else []
    let s1 := { s0 with hasServerSocket := false, streamIsBound := false }
    if attemptReconnect ∧ s1.props.shouldAttemptReconnect = true ∧
        s1.clientState = CrossClientStateT.connected then
      ({ s1 with clientState := CrossClientStateT.reconnecting },
        sendEvs ++ [CEvent.attemptReconnectEv])
    else
      ({ s1 with clientState := CrossClientStateT.needsToConnect },
        sendEvs ++ [CEvent.disconnectEv])
  else (s, [])

/-- CrossClient::OnReceiveNewData, translated branch for branch. Returns the
new client state, the emitted events/sends, and the number of buffer bytes
consumed. Abbreviations: data ids 0 HANDSHAKE, 1 INIT_CLIENT_ID,
2 RECONNECT_PACK, 3 DISCONNECT_PACK, 4 INIT_CUSTOM_DATA_LIST,
5 UNKNOWN_PACK, 6 ALIVENESS_TEST. Per-dataID user callbacks are outside the
model; the generic receive hook is the `receiveEv` event. -/
def clientOnReceiveNewData (floatDec : List Nat → ℚ) (s : ClientSt)
    (data : List Nat) (method : NetTransMethodT) :
    ClientSt × List CEvent × Nat :=
  if headerSize ≤ data.length then
    let h := peakHeader data
    if maxPayloadBytes < h.payloadSize then
      (s, [CEvent.transErrorEv false method NetTransErrorT.invalidPayloadSize],
        data.length)
    else if h.payloadSize + headerSize + getFooterLength h ≤ data.length then
      let f := peakFooter data h
      let pack : CrossPack := ⟨h, f, (data.drop headerSize).take h.payloadSize⟩
      let sz := getPacketSize pack
      if h.dataID = 0 then
        let evs :=
          if s.clientState = CrossClientStateT.receivingID ∨ s.clientID = 0 then
            sendEv s.clientState 1 none
          else sendEv s.clientState 2 (some s.clientID)
        (s, evs ++ [CEvent.handshakeEv], sz)
      else if h.dataID = 1 ∨ h.dataID = 2 then
        let s1 := { s with timeoutElapsed := 0, timeoutDelay := crossSockMaxTimeout, ping := 0 }
        let aliveEvs := sendAliveEv s1.clientState
          ((s1.props.alivenessTestDelay + s1.ping) * timeoutFactor)
        let newID := (rdU32 pack 0).1
        let s2 := { s1 with clientState := CrossClientStateT.receivingDataList }
        if newID ≠ 0 then
          let s3 := { s2 with clientID := newID }
          let evs :=
            if h.dataID = 2 then [CEvent.reconnectEv]
            else
              (if s3.clientState = CrossClientStateT.requestingID then
                [CEvent.failedReconnectEv] else []) ++ [CEvent.connectEv]
          (s3, aliveEvs ++ evs ++ sendEv s3.clientState 4 none, sz)
        else
          let evs :=
            if s2.clientState = CrossClientStateT.receivingID then
              sendEv s2.clientState 1 none
            else sendEv s2.clientState 2 (some s2.clientID)
          (s2, aliveEvs ++ evs, sz)
      else if h.dataID = 3 then
        let r := clientDisconnect s false
        (r.1, r.2, sz)
      else if h.dataID = 4 then
        let r1 := rdU16 pack 0
        let r2 := rdU16 pack r1.2
        let r3 := rdString pack r2.2
        let r4 := rdU16 pack r3.2
        let s1 := { s with dataEvents := upsertFirst s.dataEvents r3.1 r4.1 }
        if s1.clientState = CrossClientStateT.connected ∨
            (r2.1 : Int) ≥ (r1.1 : Int) - 1 then
          if s1.clientState ≠ CrossClientStateT.connected then
            let evs := sendEv s1.clientState 0 none
            ({ s1 with clientState := CrossClientStateT.connected },
              evs ++ [CEvent.readyEv], sz)
          else (s1, [], sz)
        else (s1, [], sz)
      else if h.dataID = 6 then
        let newPing := max (s.timeoutElapsed - s.timeoutDelay) 0
        let td := (rdF32 floatDec pack 0).1
        ({ s with ping := newPing, timeoutElapsed := 0, timeoutDelay := td }, [], sz)
      else
        if h.dataID ≠ 5 ∧ (method = NetTransMethodT.tcp ∨ isValid pack = true)
          then (s, [CEvent.receiveEv h.dataID method], sz)
        else
          let err := if h.dataID ≠ 5 then NetTransErrorT.invalidDataID
            else NetTransErrorT.invalidChecksum
          (s, [CEvent.transErrorEv true method err], sz)
    else (s, [], 0)
  else (s, [], 0)

/-- The aliveness part of CrossClient::Update (the branch for states other
than NEEDS_TO_CONNECT / CONNECTING / RECONNECTING): when the aliveness timer
has elapsed the configured cadence, reset it and send an ALIVENESS whose
float payload is `(alivenessTestDelay + ping) * 3.1`; if the send fails or
the timeout budget has elapsed, Disconnect(true). -/
def clientUpdateHeartbeat (s : ClientSt) (sendResult : Int) :
    ClientSt × List CEvent :=
  if s.clientState ≠ CrossClientStateT.reconnecting ∧
      s.props.alivenessTestDelay ≤ s.alivenessElapsed then
    let v := (s.props.alivenessTestDelay + s.ping) * timeoutFactor
    let s1 := { s with alivenessElapsed := 0 }
    let sendEvs := sendAliveEv s1.clientState v
    if sendToServer s1.clientState sendResult < 0 ∨
        s1.timeoutDelay ≤ s1.timeoutElapsed then
      let r := clientDisconnect s1 true
      (r.1, sendEvs ++ r.2)
    else (s1, sendEvs)
  else (s, [])

/-- A trivial float decoder, used to instantiate `floatDec` in closed
evaluations whose path never decodes a float. -/
def floatDecZero : List Nat → ℚ := fun _ => 0

/-!  ## C10: send gates  -/

/-- C10. SendToServer returns CLIENT_NOT_CONNECTED exactly when the client
state is NEEDS_TO_CONNECT, CONNECTING or RECONNECTING; in every other state
(including RECEIVING_ID and REQUESTING_ID) it returns the socket send
result; StreamToServer applies the same state gate and, past it, returns
STREAM_NOT_BOUND whenever the UDP companion socket is unbound, else the
socket result. `sockResult` ranges over what the socket send can return
(-1 or a byte count). -/
theorem c10_sendGates (st : CrossClientStateT) (bound : Bool) (r : Int)
    (hr : r = -1 ∨ 0 ≤ r) :
    (sendToServer st r = netTransErrorCode NetTransErrorT.clientNotConnected ↔
      (st = CrossClientStateT.needsToConnect ∨
        st = CrossClientStateT.connecting ∨
        st = CrossClientStateT.reconnecting)) ∧
    ((st = CrossClientStateT.needsToConnect ∨
        st = CrossClientStateT.connecting ∨
        st = CrossClientStateT.reconnecting) →
      streamToServer st bound r =
        netTransErrorCode NetTransErrorT.clientNotConnected) ∧
    (¬(st = CrossClientStateT.needsToConnect ∨
        st = CrossClientStateT.connecting ∨
        st = CrossClientStateT.reconnecting) →
      sendToServer st r = r) ∧
    (¬(st = CrossClientStateT.needsToConnect ∨
        st = CrossClientStateT.connecting ∨
        st = CrossClientStateT.reconnecting) →
      bound = false →
      streamToServer st bound r =
        netTransErrorCode NetTransErrorT.streamNotBound) ∧
    (¬(st = CrossClientStateT.needsToConnect ∨
        st = CrossClientStateT.connecting ∨
        st = CrossClientStateT.reconnecting) →
      bound = true → streamToServer st bound r = r) := by
  cases st <;> cases bound <;>
    simp [sendToServer, streamToServer, sendGated, netTransErrorCode] <;>
    omega

/-- Witness for C10: in state RECEIVING_ID, a socket result of 7 is passed
through by SendToServer, and StreamToServer with an unbound stream returns
STREAM_NOT_BOUND. -/
theorem c10_sendGates_witness :
    sendToServer CrossClientStateT.receivingID 7 = 7 ∧
    streamToServer CrossClientStateT.receivingID false 7 =
      netTransErrorCode NetTransErrorT.streamNotBound :=
  ⟨(c10_sendGates CrossClientStateT.receivingID false 7
      (Or.inr (by decide))).2.2.1 (by decide),
    (c10_sendGates CrossClientStateT.receivingID false 7
      (Or.inr (by decide))).2.2.2.1 (by decide) rfl⟩

/-!  ## C4: denied identity resumption on the client  -/

/-- Client state used to exhibit the dead ReconnectFailed branch: TCP
reconnect succeeded, awaiting identity resumption. -/
def c4State : ClientSt :=
  { clientState := CrossClientStateT.requestingID, clientID := 1, ping := 0,
    timeoutElapsed := 0, timeoutDelay := crossSockMaxTimeout,
    alivenessElapsed := 0, dataEvents := [], hasServerSocket := true,
    streamIsBound := false, props := defaultClientProperties }

/-- A serialized INIT_CLIENT_ID frame carrying the new id 2 (little-endian:
dataID 1, payloadSize 4, flags 0, padding, then the id 2). -/
def c4Frame : List Nat := [1, 0, 4, 0, 0, 0, 2, 0, 0, 0]

/-- C4. Claim: in state REQUESTING_ID, an INIT_CLIENT_ID with a non-zero id
fires ReconnectFailed and then Connect, adopts the new id and proceeds to
RECEIVING_DATA_LIST. The code adopts the id, fires Connect and moves to
RECEIVING_DATA_LIST, but never fires ReconnectFailed: `clientState` is
overwritten with CLIENT_RECEIVING_DATA_LIST before the
`clientState == CLIENT_REQUESTING_ID` test (CrossClient.h:899 vs :907), so
that test is dead. This theorem evaluates the embedded code at the failing
input: the event list is aliveness-send, Connect, data-list request — with
no ReconnectFailed. -/
theorem c4_noFailedReconnect :
    clientOnReceiveNewData floatDecZero c4State c4Frame NetTransMethodT.tcp =
      ({ c4State with
          clientState := CrossClientStateT.receivingDataList,
          clientID := 2 },
        [CEvent.sendAliveness 3100, CEvent.connectEv, CEvent.sendCtl 4 none],
        10) ∧
    CEvent.failedReconnectEv ∉
      (clientOnReceiveNewData floatDecZero c4State c4Frame
        NetTransMethodT.tcp).2.1 := by
  have heq : clientOnReceiveNewData floatDecZero c4State c4Frame
      NetTransMethodT.tcp =
      ({ c4State with
          clientState := CrossClientStateT.receivingDataList,
          clientID := 2 },
        [CEvent.sendAliveness 3100, CEvent.connectEv, CEvent.sendCtl 4 none],
        10) := by
    unfold clientOnReceiveNewData c4State c4Frame
    norm_num [peakHeader, le16At, le32At, byteAt, maxPayloadBytes, headerSize,
      getFooterLength, checkBit, getPacketSize, peakFooter, rdU32, sendAliveEv,
      sendEv, sendGated, defaultClientProperties, crossSockMaxTimeout,
      timeoutFactor]
    decide
  refine ⟨heq, ?_⟩
  rw [heq]
  decide

/-!  ## C9: aliveness payload and ping accounting  -/

/-- Events of clientDisconnect never include an aliveness send. -/
theorem sendAliveness_notin_clientDisconnect (v : ℚ) (s : ClientSt)
    (b : Bool) : CEvent.sendAliveness v ∉ (clientDisconnect s b).2 := by
  unfold clientDisconnect sendEv
  repeat' split <;> simp

/-- C9. Every ALIVENESS the client heartbeat sends carries the float payload
`(alivenessTestDelay + ping) * 3.1` (exact-rational idealization of the
C double arithmetic); and on receiving an ALIVENESS frame (canonical frame:
dataID 6, four payload bytes, no footer), the client sets ping to the
elapsed time since the last timeout reset minus the previously expected
timeout delay floored at 0, resets the timeout timer, and sets the expected
timeout delay to the received float payload. -/
theorem c9_aliveness (floatDec : List Nat → ℚ) (s : ClientSt)
    (sendResult : Int) (pad b0 b1 b2 b3 : Nat) :
    (∀ v, CEvent.sendAliveness v ∈ (clientUpdateHeartbeat s sendResult).2 →
      v = (s.props.alivenessTestDelay + s.ping) * timeoutFactor) ∧
    (∀ method : NetTransMethodT,
      (clientOnReceiveNewData floatDec s ([6, 0, 4, 0, 0, pad] ++
          [b0, b1, b2, b3]) method).1.ping =
        max (s.timeoutElapsed - s.timeoutDelay) 0 ∧
      (clientOnReceiveNewData floatDec s ([6, 0, 4, 0, 0, pad] ++
          [b0, b1, b2, b3]) method).1.timeoutElapsed = 0 ∧
      (clientOnReceiveNewData floatDec s ([6, 0, 4, 0, 0, pad] ++
          [b0, b1, b2, b3]) method).1.timeoutDelay =
        floatDec [b0, b1, b2, b3]) := by
  constructor
  · intro v hv
    unfold clientUpdateHeartbeat at hv
    split at hv
    · dsimp only at hv
      split at hv
      · rw [List.mem_append] at hv
        rcases hv with hv | hv
        · unfold sendAliveEv at hv
          split at hv
          · simp at hv
          · simp at hv
            exact hv
        · exact absurd hv (sendAliveness_notin_clientDisconnect v _ true)
      · unfold sendAliveEv at hv
        split at hv
        · simp at hv
        · simp at hv
          exact hv
    · simp at hv
  · intro method
    have hfrm : clientOnReceiveNewData floatDec s ([6, 0, 4, 0, 0, pad] ++
        [b0, b1, b2, b3]) method =
        ({ s with
            ping := max (s.timeoutElapsed - s.timeoutDelay) 0,
            timeoutElapsed := 0,
            timeoutDelay := floatDec [b0, b1, b2, b3] },
          [], 10) := by
      unfold clientOnReceiveNewData
      simp [peakHeader, le16At, byteAt, maxPayloadBytes, headerSize,
        getFooterLength, checkBit, getPacketSize, peakFooter, rdF32]
    rw [hfrm]
    exact ⟨rfl, rfl, rfl⟩

/-- State for the C9 witness: connected, heartbeat due. -/
def c9WitnessState : ClientSt :=
  { clientState := CrossClientStateT.connected, clientID := 1, ping := 0,
    timeoutElapsed := 0, timeoutDelay := crossSockMaxTimeout,
    alivenessElapsed := 1000, dataEvents := [], hasServerSocket := true,
    streamIsBound := true, props := defaultClientProperties }

/-- Witness for C9: the due heartbeat of a connected client with ping 0 and
cadence 1000 sends an ALIVENESS carrying 3100 = (1000 + 0) * 3.1, and
receiving an ALIVENESS resets the timeout timer. -/
theorem c9_aliveness_witness :
    (3100 : ℚ) = (c9WitnessState.props.alivenessTestDelay +
        c9WitnessState.ping) * timeoutFactor ∧
    (clientOnReceiveNewData floatDecZero c9WitnessState
        ([6, 0, 4, 0, 0, 0] ++ [1, 2, 3, 4])
        NetTransMethodT.tcp).1.timeoutElapsed = 0 := by
  have hrun : clientUpdateHeartbeat c9WitnessState 0 =
      ({ c9WitnessState with alivenessElapsed := 0 },
        [CEvent.sendAliveness 3100]) := by
    simp [clientUpdateHeartbeat, c9WitnessState, sendAliveEv, sendGated,
      sendToServer, defaultClientProperties, timeoutFactor,
      crossSockMaxTimeout, netTransErrorCode]
    norm_num
  have hmem : CEvent.sendAliveness 3100 ∈
      (clientUpdateHeartbeat c9WitnessState 0).2 := by
    rw [hrun]
    decide
  exact ⟨(c9_aliveness floatDecZero c9WitnessState 0 0 1 2 3 4).1 3100 hmem,
    ((c9_aliveness floatDecZero c9WitnessState 0 0 1 2 3 4).2
      NetTransMethodT.tcp).2.1⟩

/-!  ## Server state machine (CrossServer.h)  -/

/-- CrossClientEntryState. -/
inductive CrossClientEntryStateT
  | entryInit
  | entryDataListExchange
  | entryConnected
  | entryDisconnected
deriving DecidableEq, Repr

/-- CrossClientEntry: the per-peer record (socket handles are outside the
model; the timers are "elapsed since last SetToNow" quantities). -/
structure SEntry where
  clientID : Nat
  address : CrossSockAddressT
  state : CrossClientEntryStateT
  customData : Nat
  ping : ℚ
  timeoutElapsed : ℚ
  timeoutDelay : ℚ
deriving DecidableEq, Repr

/-- CrossClientEntry::ResetTimeout: recompute ping (elapsed minus previous
budget, floored at 0), zero the timer, store the new expected budget. -/
def resetTimeout (e : SEntry) (expected : ℚ) : SEntry :=
  { e with ping := max (e.timeoutElapsed - e.timeoutDelay) 0,
           timeoutElapsed := 0, timeoutDelay := expected }

/-- CrossServerProperties (the fields the embedded operations read). -/
structure CrossServerProperties where
  allowUDPPackets : Bool
  useBlacklist : Bool
  useWhitelist : Bool
  alivenessTestDelay : ℚ
  shouldFlushDisconnectedClientData : Bool
  disconnectedClientFlushDelay : ℚ
deriving DecidableEq, Repr

/-- Default-constructed server properties. -/
def defaultServerProperties : CrossServerProperties :=
  ⟨true, true, false, 1000, true, crossSockMaxTimeout⟩

/-- Lookup in an id-keyed map (std::unordered_map is modelled as an
association list with unique keys). -/
def mapLookup (m : List (Nat × SEntry)) (k : Nat) : Option SEntry :=
  (m.find? (fun kv => kv.1 == k)).map (fun kv => kv.2)

/-- Insert-or-assign in an id-keyed map (operator[] plus assignment). -/
def mapInsert : List (Nat × SEntry) → Nat → SEntry → List (Nat × SEntry)
  | [], k, v => [(k, v)]
  | kv :: rest, k, v =>
      if kv.1 = k then (k, v) :: rest else kv :: mapInsert rest k v

/-- Erase a key from an id-keyed map. -/
def mapErase : List (Nat × SEntry) → Nat → List (Nat × SEntry)
  | [], _ => []
  | kv :: rest, k =>
      if kv.1 = k then mapErase rest k else kv :: mapErase rest k

/-- Lookup in the connection policy list (keys compared with the source's
address equality; the query is the left operand). -/
def policyLookup (l : List (CrossSockAddressT × Bool))
    (a : CrossSockAddressT) : Option Bool :=
  (l.find? (fun kv => addrEq a kv.1)).map (fun kv => kv.2)

/-- Observable effects of the server. Events carry the clientID of the
entry they were fired with / the packet was sent to. -/
inductive SEvent
  | bindEv
  | readyEv (id : Nat)
  | connectEv (id : Nat)
  | disconnectEv (id : Nat)
  | reconnectEv (id : Nat)
  | failedReconnectEv (id : Nat)
  | initializeClientEv (id : Nat)
  | destroyClientEv (id : Nat)
  | rejectEv (id : Nat)
  | receiveEv (id : Nat) (dataID : Nat) (method : NetTransMethodT)
  | transErrorEv (packPresent : Bool) (client : Option Nat)
      (method : NetTransMethodT) (err : NetTransErrorT)
  | sendCtlTo (id : Nat) (dataID : Nat) (idPayload : Option Nat)
  | sendAlivenessTo (id : Nat) (v : ℚ)
  | sendDataListEntryTo (id : Nat) (total idx : Nat) (name : List Nat)
      (dataID : Nat)
deriving DecidableEq, Repr

/-- Server state (sockets and the bind machinery are outside the model;
`nextAvailableClientID` is the unsigned 32-bit issuance counter). -/
structure ServerSt where
  connectedClients : List (Nat × SEntry)
  disconnectedClients : List (Nat × SEntry)
  nextAvailableClientID : Nat
  canConnectList : List (CrossSockAddressT × Bool)
  props : CrossServerProperties
  dataEvents : List (List Nat × Nat)
deriving DecidableEq, Repr

/-- A freshly initialized server (CrossServer::Init):
nextAvailableClientID = 1, empty maps, default properties. -/
def freshServer : ServerSt :=
  ⟨[], [], 1, [], defaultServerProperties, []⟩

/-- Events of a SendToClient of a control packet (no send when the entry is
already disconnected). -/
def sendToClientEv (e : SEntry) (dataID : Nat) (pl : Option Nat) :
    List SEvent :=
  if e.state ≠ CrossClientEntryStateT.entryDisconnected then
    [SEvent.sendCtlTo e.clientID dataID pl]
  else []

/-- Events of a SendToClient of an ALIVENESS packet with float payload
`v`. -/
def sendAliveToClientEv (e : SEntry) (v : ℚ) : List SEvent :=
  if e.state ≠ CrossClientEntryStateT.entryDisconnected then
    [SEvent.sendAlivenessTo e.clientID v]
  else []

/-- CrossServer::DisconnectClient: if the entry is not already
disconnected, record it in the disconnected map (when saving is requested,
resetting its timeout to the flush delay when flushing is on — the map holds
the same shared entry, so it sees the final DISCONNECTED state), send
DISCONNECT, mark it DISCONNECTED and fire the disconnect event. Returns the
new server state, the updated entry (to be written back wherever the shared
pointer lives) and the events. -/
def serverDisconnectClient (s : ServerSt) (e : SEntry) (saveData : Bool) :
    ServerSt × SEntry × List SEvent :=
  if e.state ≠ CrossClientEntryStateT.entryDisconnected then
    let e1 := if saveData ∧ s.props.shouldFlushDisconnectedClientData = true
      then resetTimeout e s.props.disconnectedClientFlushDelay else e
    let e2 := { e1 with state := CrossClientEntryStateT.entryDisconnected }
    let disc := if saveData then mapInsert s.disconnectedClients e.clientID e2
      else s.disconnectedClients
    ({ s with disconnectedClients := disc }, e2,
      sendToClientEv e 3 none ++ [SEvent.disconnectEv e.clientID])
  else (s, e, [])

/-- One accepted socket-layer connection inside CrossServer::Update's accept
loop: build the provisional entry (id = nextAvailableClientID, state INIT),
consult the policy list under denylist then allowlist mode, run the optional
validation callback (its verdict is the `validateOk` argument); accept
(advance the id counter — an unsigned 32-bit increment — record the peer,
send HANDSHAKE) or reject (fire Reject, then DisconnectClient). -/
def acceptPeer (s : ServerSt) (newClientAddress : CrossSockAddressT)
    (validateOk : Bool) : ServerSt × List SEvent :=
  let newEntry : SEntry := ⟨s.nextAvailableClientID, newClientAddress,
    CrossClientEntryStateT.entryInit, 0, 0, 0, crossSockMaxTimeout⟩
  let lk := policyLookup s.canConnectList newClientAddress
  let canConnect := lk.getD false
  let onList := lk.isSome
  if !s.props.useBlacklist || !onList || canConnect then
    if !s.props.useWhitelist || canConnect then
      if validateOk then
        ({ s with
            nextAvailableClientID :=
              (s.nextAvailableClientID + 1) % 4294967296,
            connectedClients :=
              mapInsert s.connectedClients newEntry.clientID newEntry },
          sendToClientEv newEntry 0 none)
      else
        let r := serverDisconnectClient s newEntry true
        (r.1, SEvent.rejectEv newEntry.clientID :: r.2.2)
    else
      let r := serverDisconnectClient s newEntry true
      (r.1, SEvent.rejectEv newEntry.clientID :: r.2.2)
  else
    let r := serverDisconnectClient s newEntry true
    (r.1, SEvent.rejectEv newEntry.clientID :: r.2.2)

/-- The RECONNECT_PACK branch of CrossServer::OnReceiveNewData, for a peer
found at key `k` with entry `e`, carrying `oldID` in its payload; `sz` is
the frame's packet size. Mirrors CrossServer.h lines 1389-1452: reset the
peer's timeout, send an ALIVENESS; if oldID is 0 or currently a live key,
reply INIT_CLIENT_ID with the provisional id and fire FailedReconnect,
Connect, InitializeClient; otherwise re-key the peer to oldID, transplant
the user-data pointer from a disconnected record when one exists (dropping
the record) or fire InitializeClient when none does, reply RECONNECT with
oldID and fire Reconnect. -/
def srvHandleReconnect (s : ServerSt) (k : Nat) (e : SEntry) (oldID : Nat)
    (sz : Nat) : ServerSt × List SEvent × Nat :=
  let e1 := resetTimeout e crossSockMaxTimeout
  let m0 := mapInsert s.connectedClients k e1
  let s1 := { s with connectedClients := m0 }
  let evs0 := sendAliveToClientEv e1
    (s.props.alivenessTestDelay * timeoutFactor)
  if oldID = 0 ∨ (mapLookup s1.connectedClients oldID).isSome then
    let evs1 := sendToClientEv e1 1 (some e1.clientID)
    let e2 := if e1.state = CrossClientEntryStateT.entryInit then
      { e1 with state := CrossClientEntryStateT.entryDataListExchange }
      else e1
    ({ s1 with connectedClients :=
        mapInsert s1.connectedClients k e2 },
      evs0 ++ evs1 ++ [SEvent.failedReconnectEv e2.clientID,
        SEvent.connectEv e2.clientID,
        SEvent.initializeClientEv e2.clientID], sz)
  else
    let m1 := mapErase s1.connectedClients e1.clientID
    let e2 := { e1 with clientID := oldID }
    let m2 := mapInsert m1 oldID e2
    match mapLookup s1.disconnectedClients oldID with
    | some old =>
      let e3 := { e2 with customData := old.customData }
      let m3 := mapInsert m2 oldID e3
      let disc := mapErase s1.disconnectedClients oldID
      let evs1 := sendToClientEv e3 2 (some oldID)
      let e4 := if e3.state = CrossClientEntryStateT.entryInit then
        { e3 with
            state := CrossClientEntryStateT.entryDataListExchange }
        else e3
      let m4 := mapInsert m3 oldID e4
      ({ s1 with connectedClients := m4, disconnectedClients := disc },
        evs0 ++ evs1 ++ [SEvent.reconnectEv oldID], sz)
    | none =>
      let evs1 := sendToClientEv e2 2 (some oldID)
      let e4 := if e2.state = CrossClientEntryStateT.entryInit then
        { e2 with
            state := CrossClientEntryStateT.entryDataListExchange }
        else e2
      ({ s1 with connectedClients := mapInsert m2 oldID e4 },
        evs0 ++ [SEvent.initializeClientEv oldID] ++ evs1 ++
          [SEvent.reconnectEv oldID], sz)

/-- CrossServer::OnReceiveNewData, translated branch for branch. `inClient`
is the key of the peer the bytes came from (None models a null pointer; on
UDP frames with the sender-id flag the peer is re-resolved from the
footer's senderID). Returns the new state, events and bytes consumed. -/
def serverOnReceiveNewData (floatDec : List Nat → ℚ) (s : ServerSt)
    (data : List Nat) (inClientKey : Option Nat) (method : NetTransMethodT) :
    ServerSt × List SEvent × Nat :=
  if headerSize ≤ data.length then
    let h := peakHeader data
    if maxPayloadBytes < h.payloadSize then
      (s, [SEvent.transErrorEv false inClientKey method
        NetTransErrorT.invalidPayloadSize], data.length)
    else if h.payloadSize + headerSize + getFooterLength h ≤ data.length then
      let f := peakFooter data h
      let pack : CrossPack := ⟨h, f, (data.drop headerSize).take h.payloadSize⟩
      let sz := getPacketSize pack
      let key := if method = NetTransMethodT.udp ∧ checkBit h.packFlags 1 = true
        then (if (mapLookup s.connectedClients f.senderID).isSome then
          some f.senderID else none)
        else inClientKey
      match key.bind (fun k =>
          (mapLookup s.connectedClients k).map (fun e => (k, e))) with
      | some (k, e) =>
        if h.dataID = 0 then
          if e.state = CrossClientEntryStateT.entryDataListExchange then
            let e1 := { e with state := CrossClientEntryStateT.entryConnected }
            ({ s with connectedClients := mapInsert s.connectedClients k e1 },
              [SEvent.readyEv e.clientID], sz)
          else (s, [], sz)
        else if h.dataID = 1 then
          let e1 := resetTimeout e crossSockMaxTimeout
          let evs1 := sendAliveToClientEv e1
            ((s.props.alivenessTestDelay + e1.ping) * timeoutFactor)
          let evs2 := sendToClientEv e1 1 (some e1.clientID)
          let e2 := if e1.state = CrossClientEntryStateT.entryInit then
            { e1 with state := CrossClientEntryStateT.entryDataListExchange }
            else e1
          ({ s with connectedClients := mapInsert s.connectedClients k e2 },
            evs1 ++ evs2 ++ [SEvent.connectEv e2.clientID,
              SEvent.initializeClientEv e2.clientID], sz)
        else if h.dataID = 3 then
          let r := serverDisconnectClient s e true
          ({ r.1 with connectedClients :=
              mapInsert r.1.connectedClients k r.2.1 }, r.2.2, sz)
        else if h.dataID = 2 then
          srvHandleReconnect s k e (rdU32 pack 0).1 sz
        else if h.dataID = 4 then
          let total := s.dataEvents.length
          let evs := if e.state ≠ CrossClientEntryStateT.entryDisconnected
            then s.dataEvents.enum.map (fun ie =>
              SEvent.sendDataListEntryTo e.clientID total ie.1 ie.2.1 ie.2.2)
            else []
          (s, evs, sz)
        else if h.dataID = 6 then
          let e1 := resetTimeout e (rdF32 floatDec pack 0).1
          ({ s with connectedClients := mapInsert s.connectedClients k e1 },
            [], sz)
        else
          if h.dataID ≠ 5 ∧
              (method = NetTransMethodT.tcp ∨ isValid pack = true) then
            (s, [SEvent.receiveEv e.clientID h.dataID method], sz)
          else
            let err := if h.dataID = 5 then NetTransErrorT.invalidDataID
              else NetTransErrorT.invalidChecksum
            (s, [SEvent.transErrorEv true key method err], sz)
      | none =>
          (s, [SEvent.transErrorEv true none method
            NetTransErrorT.clientNotFound], sz)
    else (s, [], 0)
  else (s, [], 0)

/-!  ## Map lemmas  -/

theorem mapLookup_cons (kv : Nat × SEntry) (rest : List (Nat × SEntry))
    (k' : Nat) :
    mapLookup (kv :: rest) k' =
      if kv.1 = k' then some kv.2 else mapLookup rest k' := by
  simp only [mapLookup, List.find?]
  cases h : (kv.1 == k') <;> simp_all

theorem mapLookup_mapInsert (m : List (Nat × SEntry)) (k k' : Nat)
    (v : SEntry) :
    mapLookup (mapInsert m k v) k' =
      if k' = k then some v else mapLookup m k' := by
  induction m with
  | nil =>
      by_cases h : k' = k <;>
        simp [mapInsert, mapLookup_cons, mapLookup, h] <;> omega
  | cons kv rest ih =>
      by_cases h2 : k' = k
      · subst h2
        by_cases h1 : kv.1 = k' <;> simp [mapInsert, mapLookup_cons, h1, ih]
      · by_cases h1 : kv.1 = k <;> by_cases h3 : kv.1 = k' <;>
          simp [mapInsert, mapLookup_cons, h1, h3, h2, ih] <;>
          rw [if_neg (by omega), if_neg (by omega)]

theorem mapLookup_mapErase (m : List (Nat × SEntry)) (k k' : Nat) :
    mapLookup (mapErase m k) k' =
      if k' = k then none else mapLookup m k' := by
  induction m with
  | nil => simp [mapErase, mapLookup]
  | cons kv rest ih =>
      by_cases h2 : k' = k
      · subst h2
        by_cases h1 : kv.1 = k' <;> simp [mapErase, mapLookup_cons, h1, ih]
      · by_cases h1 : kv.1 = k <;> by_cases h3 : kv.1 = k' <;>
          simp [mapErase, mapLookup_cons, h1, h3, h2, ih] <;>
          rw [if_neg (by omega)]

/-!  ## C3: oversized inbound payload  -/

/-- C3. On both the client and the server receive pipeline: when the buffer
holds at least a full header and the declared payloadSize exceeds the
maximum payload capacity, the transmit-error event fires with a null packet
and INVALID_PAYLOAD_SIZE, the dispatch step consumes the entire remaining
buffer (returns the full input length), the state is unchanged, and no
other event fires. -/
theorem c3_invalidPayloadSize (floatDec : List Nat → ℚ) (cs : ClientSt)
    (ss : ServerSt) (data : List Nat) (key : Option Nat)
    (method : NetTransMethodT)
    (hlen : headerSize ≤ data.length)
    (hbig : maxPayloadBytes < le16At data 2) :
    clientOnReceiveNewData floatDec cs data method =
      (cs, [CEvent.transErrorEv false method NetTransErrorT.invalidPayloadSize],
        data.length) ∧
    serverOnReceiveNewData floatDec ss data key method =
      (ss, [SEvent.transErrorEv false key method
        NetTransErrorT.invalidPayloadSize], data.length) := by
  constructor
  · unfold clientOnReceiveNewData
    rw [if_pos hlen]
    dsimp only
    rw [if_pos (show maxPayloadBytes < (peakHeader data).payloadSize from hbig)]
  · unfold serverOnReceiveNewData
    rw [if_pos hlen]
    dsimp only
    rw [if_pos (show maxPayloadBytes < (peakHeader data).payloadSize from hbig)]

/-- Witness for C3: a six-byte header declaring payloadSize 1500 (which
exceeds the capacity 1486) is rejected wholesale by client and server. -/
theorem c3_invalidPayloadSize_witness :
    clientOnReceiveNewData floatDecZero c4State [7, 0, 220, 5, 0, 0]
        NetTransMethodT.tcp =
      (c4State, [CEvent.transErrorEv false NetTransMethodT.tcp
        NetTransErrorT.invalidPayloadSize], 6) ∧
    serverOnReceiveNewData floatDecZero freshServer [7, 0, 220, 5, 0, 0] none
        NetTransMethodT.tcp =
      (freshServer, [SEvent.transErrorEv false none NetTransMethodT.tcp
        NetTransErrorT.invalidPayloadSize], 6) :=
  c3_invalidPayloadSize floatDecZero c4State freshServer [7, 0, 220, 5, 0, 0]
    none NetTransMethodT.tcp (by decide) (by decide)

/-!  ## C7: policy rejection at the session layer  -/

/-- C7. A peer accepted by the socket layer whose address the policy list
maps to false while denylist mode is on, or does not map to true while
allowlist mode is on, is rejected at the session layer: it receives
DISCONNECT, Reject and Disconnect fire, it is never inserted into the live
connected-client map, the id counter does not advance, and its entry ends
DISCONNECTED — never a session state beyond provisional (INIT). This holds
in every server state, hence in every reachable one. -/
theorem c7_policyReject (s : ServerSt) (addr : CrossSockAddressT)
    (validateOk : Bool)
    (hrej : (s.props.useBlacklist = true ∧
        policyLookup s.canConnectList addr = some false) ∨
      (s.props.useWhitelist = true ∧
        policyLookup s.canConnectList addr ≠ some true)) :
    (acceptPeer s addr validateOk).1.connectedClients = s.connectedClients ∧
    (acceptPeer s addr validateOk).1.nextAvailableClientID =
      s.nextAvailableClientID ∧
    (acceptPeer s addr validateOk).2 =
      [SEvent.rejectEv s.nextAvailableClientID,
        SEvent.sendCtlTo s.nextAvailableClientID 3 none,
        SEvent.disconnectEv s.nextAvailableClientID] ∧
    (∃ e2, mapLookup (acceptPeer s addr validateOk).1.disconnectedClients
        s.nextAvailableClientID = some e2 ∧
      e2.state = CrossClientEntryStateT.entryDisconnected ∧
      e2.state ≠ CrossClientEntryStateT.entryDataListExchange ∧
      e2.state ≠ CrossClientEntryStateT.entryConnected) := by
  have hshape : acceptPeer s addr validateOk =
      ((serverDisconnectClient s ⟨s.nextAvailableClientID, addr,
          CrossClientEntryStateT.entryInit, 0, 0, 0, crossSockMaxTimeout⟩
          true).1,
        SEvent.rejectEv s.nextAvailableClientID ::
          (serverDisconnectClient s ⟨s.nextAvailableClientID, addr,
            CrossClientEntryStateT.entryInit, 0, 0, 0,
            crossSockMaxTimeout⟩ true).2.2) := by
    unfold acceptPeer
    rcases hrej with ⟨hb, hlk⟩ | ⟨hw, hlk⟩
    · rw [hlk, hb]
      simp
    · rcases hpl : policyLookup s.canConnectList addr with _ | b
      · simp [hw]
      · cases b
        · cases hbl : s.props.useBlacklist <;> simp [hw, hbl]
        · exact absurd hpl hlk
  have hsd : (serverDisconnectClient s ⟨s.nextAvailableClientID, addr,
      CrossClientEntryStateT.entryInit, 0, 0, 0, crossSockMaxTimeout⟩
      true).1.connectedClients = s.connectedClients ∧
      (serverDisconnectClient s ⟨s.nextAvailableClientID, addr,
        CrossClientEntryStateT.entryInit, 0, 0, 0, crossSockMaxTimeout⟩
        true).1.nextAvailableClientID = s.nextAvailableClientID ∧
      (serverDisconnectClient s ⟨s.nextAvailableClientID, addr,
        CrossClientEntryStateT.entryInit, 0, 0, 0, crossSockMaxTimeout⟩
        true).2.2 = [SEvent.sendCtlTo s.nextAvailableClientID 3 none,
          SEvent.disconnectEv s.nextAvailableClientID] ∧
      (∃ e2, mapLookup (serverDisconnectClient s ⟨s.nextAvailableClientID,
          addr, CrossClientEntryStateT.entryInit, 0, 0, 0,
          crossSockMaxTimeout⟩ true).1.disconnectedClients
          s.nextAvailableClientID = some e2 ∧
        e2.state = CrossClientEntryStateT.entryDisconnected) := by
    cases hf : s.props.shouldFlushDisconnectedClientData <;>
      refine ⟨?_, ?_, ?_, ?_⟩ <;>
      simp [serverDisconnectClient, sendToClientEv, resetTimeout, hf,
        mapLookup_mapInsert]
  rw [hshape]
  refine ⟨hsd.1, hsd.2.1, ?_, ?_⟩
  · dsimp only
    rw [hsd.2.2.1]
  · obtain ⟨e2, he2, hst⟩ := hsd.2.2.2
    exact ⟨e2, he2, hst, by rw [hst]; decide, by rw [hst]; decide⟩

/-!  ## C5: server-side RECONNECT handling  -/

theorem serverOnReceive_reconnect_frame (floatDec : List Nat → ℚ)
    (s : ServerSt) (pid : Nat) (e : SEntry) (pad b0 b1 b2 b3 : Nat)
    (hlk : mapLookup s.connectedClients pid = some e) :
    serverOnReceiveNewData floatDec s [2, 0, 4, 0, 0, pad, b0, b1, b2, b3]
        (some pid) NetTransMethodT.tcp =
      srvHandleReconnect s pid e
        (b0 + 256 * b1 + 65536 * b2 + 16777216 * b3) 10 := by
  unfold serverOnReceiveNewData
  simp [peakHeader, le16At, le32At, byteAt, maxPayloadBytes, headerSize,
    getFooterLength, checkBit, getPacketSize, peakFooter, rdU32, hlk]

/-- C5. When the server receives a RECONNECT frame carrying oldID from a
live peer keyed `pid` (canonical frame: dataID 2, a four-byte payload, no
footer): if oldID is 0 or a current key of the live connected-client map,
it replies INIT_CLIENT_ID with the peer's provisional id and fires
FailedReconnect, then Connect, then InitializeClient (after the aliveness
probe), keeping the peer under its provisional key; otherwise it re-keys
the peer from `pid` to oldID; when a disconnected record for oldID exists
it transplants that record's user-data into the peer and drops the record
(firing InitializeClient only when no record exists), then replies
RECONNECT carrying oldID and fires Reconnect. -/
theorem c5_serverReconnect (floatDec : List Nat → ℚ) (s : ServerSt)
    (pid : Nat) (e : SEntry) (pad b0 b1 b2 b3 o : Nat)
    (ho : o = b0 + 256 * b1 + 65536 * b2 + 16777216 * b3)
    (hlk : mapLookup s.connectedClients pid = some e)
    (hid : e.clientID = pid)
    (hlive : e.state ≠ CrossClientEntryStateT.entryDisconnected) :
    ((o = 0 ∨ (mapLookup s.connectedClients o).isSome = true) →
      (serverOnReceiveNewData floatDec s [2, 0, 4, 0, 0, pad, b0, b1, b2, b3]
          (some pid) NetTransMethodT.tcp).2.1 =
        [SEvent.sendAlivenessTo pid
            (s.props.alivenessTestDelay * timeoutFactor),
          SEvent.sendCtlTo pid 1 (some pid),
          SEvent.failedReconnectEv pid, SEvent.connectEv pid,
          SEvent.initializeClientEv pid] ∧
      (mapLookup (serverOnReceiveNewData floatDec s
          [2, 0, 4, 0, 0, pad, b0, b1, b2, b3] (some pid)
          NetTransMethodT.tcp).1.connectedClients pid).isSome = true) ∧
    (¬(o = 0 ∨ (mapLookup s.connectedClients o).isSome = true) →
      ∀ old, mapLookup s.disconnectedClients o = some old →
      (serverOnReceiveNewData floatDec s [2, 0, 4, 0, 0, pad, b0, b1, b2, b3]
          (some pid) NetTransMethodT.tcp).2.1 =
        [SEvent.sendAlivenessTo pid
            (s.props.alivenessTestDelay * timeoutFactor),
          SEvent.sendCtlTo o 2 (some o), SEvent.reconnectEv o] ∧
      (∃ efin, mapLookup (serverOnReceiveNewData floatDec s
            [2, 0, 4, 0, 0, pad, b0, b1, b2, b3] (some pid)
            NetTransMethodT.tcp).1.connectedClients o = some efin ∧
        efin.clientID = o ∧ efin.customData = old.customData) ∧
      mapLookup (serverOnReceiveNewData floatDec s
          [2, 0, 4, 0, 0, pad, b0, b1, b2, b3] (some pid)
          NetTransMethodT.tcp).1.connectedClients pid = none ∧
      mapLookup (serverOnReceiveNewData floatDec s
          [2, 0, 4, 0, 0, pad, b0, b1, b2, b3] (some pid)
          NetTransMethodT.tcp).1.disconnectedClients o = none) ∧
    (¬(o = 0 ∨ (mapLookup s.connectedClients o).isSome = true) →
      mapLookup s.disconnectedClients o = none →
      (serverOnReceiveNewData floatDec s [2, 0, 4, 0, 0, pad, b0, b1, b2, b3]
          (some pid) NetTransMethodT.tcp).2.1 =
        [SEvent.sendAlivenessTo pid
            (s.props.alivenessTestDelay * timeoutFactor),
          SEvent.initializeClientEv o, SEvent.sendCtlTo o 2 (some o),
          SEvent.reconnectEv o] ∧
      (∃ efin, mapLookup (serverOnReceiveNewData floatDec s
            [2, 0, 4, 0, 0, pad, b0, b1, b2, b3] (some pid)
            NetTransMethodT.tcp).1.connectedClients o = some efin ∧
        efin.clientID = o ∧ efin.customData = e.customData) ∧
      mapLookup (serverOnReceiveNewData floatDec s
          [2, 0, 4, 0, 0, pad, b0, b1, b2, b3] (some pid)
          NetTransMethodT.tcp).1.connectedClients pid = none) := by
  subst ho
  rw [serverOnReceive_reconnect_frame floatDec s pid e pad b0 b1 b2 b3 hlk]
  set o := b0 + 256 * b1 + 65536 * b2 + 16777216 * b3 with ho
  unfold srvHandleReconnect
  refine ⟨?_, ?_, ?_⟩
  · intro hA
    have hcond : o = 0 ∨ (mapLookup (mapInsert s.connectedClients pid
        (resetTimeout e crossSockMaxTimeout)) o).isSome = true := by
      rcases hA with h | h
      · exact Or.inl h
      · right
        rw [mapLookup_mapInsert]
        by_cases hop : o = pid
        · simp [hop]
        · simp [hop]
          exact h
    rw [if_pos hcond]
    constructor
    · dsimp only
      simp [sendAliveToClientEv, sendToClientEv, resetTimeout, hid, hlive]
      by_cases hst : e.state = CrossClientEntryStateT.entryInit <;>
        simp [hst, hid]
    · dsimp only
      rw [mapLookup_mapInsert]
      simp
  · intro hB old hold
    have hno : ¬o = 0 ∧ (mapLookup s.connectedClients o).isSome = false := by
      push_neg at hB
      exact ⟨hB.1, by simp [hB.2]⟩
    have hop : ¬o = pid := by
      intro hc
      rw [hc, hlk] at hno
      simp at hno
    have hpo : ¬pid = o := fun hc => hop hc.symm
    have hcond : ¬(o = 0 ∨ (mapLookup (mapInsert s.connectedClients pid
        (resetTimeout e crossSockMaxTimeout)) o).isSome = true) := by
      rw [mapLookup_mapInsert, if_neg hop]
      simp [hno.1, hno.2]
    rw [if_neg hcond]
    dsimp only
    rw [hold]
    have hek : (resetTimeout e crossSockMaxTimeout).clientID = pid := by
      simp [resetTimeout, hid]
    refine ⟨?_, ?_, ?_, ?_⟩
    · simp [sendAliveToClientEv, sendToClientEv, resetTimeout, hid, hlive]
    · dsimp only
      rw [mapLookup_mapInsert, if_pos rfl]
      refine ⟨_, rfl, ?_, ?_⟩
      · by_cases hst : e.state = CrossClientEntryStateT.entryInit <;>
          simp [hst, resetTimeout]
      · by_cases hst : e.state = CrossClientEntryStateT.entryInit <;>
          simp [hst, resetTimeout]
    · dsimp only
      rw [mapLookup_mapInsert, if_neg hpo, mapLookup_mapInsert, if_neg hpo,
        mapLookup_mapInsert, if_neg hpo, hek, mapLookup_mapErase, if_pos rfl]
    · dsimp only
      rw [mapLookup_mapErase]
      simp
  · intro hB hnone
    have hno : ¬o = 0 ∧ (mapLookup s.connectedClients o).isSome = false := by
      push_neg at hB
      exact ⟨hB.1, by simp [hB.2]⟩
    have hop : ¬o = pid := by
      intro hc
      rw [hc, hlk] at hno
      simp at hno
    have hpo : ¬pid = o := fun hc => hop hc.symm
    have hcond : ¬(o = 0 ∨ (mapLookup (mapInsert s.connectedClients pid
        (resetTimeout e crossSockMaxTimeout)) o).isSome = true) := by
      rw [mapLookup_mapInsert, if_neg hop]
      simp [hno.1, hno.2]
    rw [if_neg hcond]
    dsimp only
    rw [hnone]
    have hek : (resetTimeout e crossSockMaxTimeout).clientID = pid := by
      simp [resetTimeout, hid]
    refine ⟨?_, ?_, ?_⟩
    · simp [sendAliveToClientEv, sendToClientEv, resetTimeout, hid, hlive]
    · dsimp only
      rw [mapLookup_mapInsert, if_pos rfl]
      refine ⟨_, rfl, ?_, ?_⟩
      · by_cases hst : e.state = CrossClientEntryStateT.entryInit <;>
          simp [hst, resetTimeout]
      · by_cases hst : e.state = CrossClientEntryStateT.entryInit <;>
          simp [hst, resetTimeout]
    · dsimp only
      rw [mapLookup_mapInsert, if_neg hpo, mapLookup_mapInsert, if_neg hpo,
        hek, mapLookup_mapErase, if_pos rfl]

/-- Concrete live peer for the C5 witness: provisional id 1, connected. -/
def c5WitnessEntry : SEntry :=
  ⟨1, ⟨2, 11, 80⟩, CrossClientEntryStateT.entryConnected, 42, 0, 0, 0⟩

/-- Concrete server for the C5 witness: one live peer under key 1, no
disconnected records. -/
def c5WitnessServer : ServerSt :=
  { freshServer with connectedClients := [(1, c5WitnessEntry)] }

/-- C5 witness: the peer keyed 1 reconnects as oldID 7 (free, no stale
record): the aliveness probe, InitializeClient, the RECONNECT reply and
the Reconnect event fire, the peer is re-keyed to 7 keeping its user
data, and key 1 is gone. -/
theorem c5_serverReconnect_witness :
    (serverOnReceiveNewData floatDecZero c5WitnessServer
        [2, 0, 4, 0, 0, 0, 7, 0, 0, 0] (some 1) NetTransMethodT.tcp).2.1 =
      [SEvent.sendAlivenessTo 1 3100, SEvent.initializeClientEv 7,
        SEvent.sendCtlTo 7 2 (some 7), SEvent.reconnectEv 7] ∧
    (∃ efin, mapLookup (serverOnReceiveNewData floatDecZero c5WitnessServer
          [2, 0, 4, 0, 0, 0, 7, 0, 0, 0] (some 1)
          NetTransMethodT.tcp).1.connectedClients 7 = some efin ∧
      efin.clientID = 7 ∧ efin.customData = 42) ∧
    mapLookup (serverOnReceiveNewData floatDecZero c5WitnessServer
        [2, 0, 4, 0, 0, 0, 7, 0, 0, 0] (some 1)
        NetTransMethodT.tcp).1.connectedClients 1 = none := by
  have h := (c5_serverReconnect floatDecZero c5WitnessServer 1 c5WitnessEntry
      0 7 0 0 0 7 (by norm_num) rfl rfl (by decide)).2.2
      (by decide) rfl
  refine ⟨?_, ?_, h.2.2⟩
  · rw [h.1]
    simp [c5WitnessServer, freshServer, defaultServerProperties,
      timeoutFactor]
    norm_num
  · obtain ⟨efin, h1, h2, h3⟩ := h.2.1
    exact ⟨efin, h1, h2, h3⟩

/-- Concrete server for the C7 witness: default properties (denylist mode
on) with the address 2:5:80 denylisted. -/
def c7WitnessServer : ServerSt :=
  { freshServer with canConnectList := [(⟨2, 5, 80⟩, false)] }

/-- C7 witness: the denylisted peer 2:5:80 is rejected — the live map and
the id counter are untouched, the Reject/DISCONNECT/Disconnect sequence
fires for provisional id 1, and the recorded entry ends DISCONNECTED. -/
theorem c7_policyReject_witness :
    (acceptPeer c7WitnessServer ⟨2, 5, 80⟩ true).1.connectedClients = [] ∧
    (acceptPeer c7WitnessServer ⟨2, 5, 80⟩ true).1.nextAvailableClientID
      = 1 ∧
    (acceptPeer c7WitnessServer ⟨2, 5, 80⟩ true).2 =
      [SEvent.rejectEv 1, SEvent.sendCtlTo 1 3 none,
        SEvent.disconnectEv 1] ∧
    (∃ e2, mapLookup
        (acceptPeer c7WitnessServer ⟨2, 5, 80⟩ true).1.disconnectedClients
        1 = some e2 ∧
      e2.state = CrossClientEntryStateT.entryDisconnected ∧
      e2.state ≠ CrossClientEntryStateT.entryDataListExchange ∧
      e2.state ≠ CrossClientEntryStateT.entryConnected) :=
  c7_policyReject c7WitnessServer ⟨2, 5, 80⟩ true
    (Or.inl ⟨rfl, by decide⟩)

/-!  ## C6: monotonic provisional ids  -/

/-- One operation observed at the server's session layer inside
CrossServer::Update: a socket-layer accept (with the peer's address and the
validation callback's verdict) or an incoming RECONNECT frame from the
peer keyed `peerKey` carrying `oldID`. -/
inductive ServerOp
  | opAccept (addr : CrossSockAddressT) (ok : Bool)
  | opReconnect (peerKey oldID : Nat)
deriving DecidableEq, Repr

/-- The canonical RECONNECT frame carrying `oldID`: dataID 2, a four-byte
little-endian payload, no footer. -/
def reconnectFrame (oldID : Nat) : List Nat :=
  [2, 0, 4, 0, 0, 0] ++ [oldID % 256, oldID / 256 % 256,
    oldID / 65536 % 256, oldID / 16777216 % 256]

/-- Run one server operation, keeping the state. -/
def applyOp (s : ServerSt) (op : ServerOp) : ServerSt :=
  match op with
  | ServerOp.opAccept addr ok => (acceptPeer s addr ok).1
  | ServerOp.opReconnect k oldID =>
      (serverOnReceiveNewData floatDecZero s (reconnectFrame oldID)
        (some k) NetTransMethodT.tcp).1

/-- Run a list of server operations from `s`; collect the provisional id
handed to each peer the server actually registers. The id issued by a
successful accept is the counter's value just before that accept, and the
counter moves exactly on those accepts, so an operation issues
`s.nextAvailableClientID` precisely when it changes the counter. -/
def runOps : ServerSt → List ServerOp → ServerSt × List Nat
  | s, [] => (s, [])
  | s, op :: ops =>
      if (applyOp s op).nextAvailableClientID = s.nextAvailableClientID
      then runOps (applyOp s op) ops
      else ((runOps (applyOp s op) ops).1,
        s.nextAvailableClientID :: (runOps (applyOp s op) ops).2)

theorem counter_serverDisconnectClient (s : ServerSt) (e : SEntry)
    (b : Bool) :
    (serverDisconnectClient s e b).1.nextAvailableClientID =
      s.nextAvailableClientID := by
  unfold serverDisconnectClient
  split <;> rfl

theorem counter_srvHandleReconnect (s : ServerSt) (k : Nat) (e : SEntry)
    (oldID sz : Nat) :
    (srvHandleReconnect s k e oldID sz).1.nextAvailableClientID =
      s.nextAvailableClientID := by
  unfold srvHandleReconnect
  dsimp only
  split
  · rfl
  · split <;> rfl

theorem counter_serverOnReceiveNewData (floatDec : List Nat → ℚ)
    (s : ServerSt) (data : List Nat) (inClientKey : Option Nat)
    (method : NetTransMethodT) :
    (serverOnReceiveNewData floatDec s data inClientKey
        method).1.nextAvailableClientID = s.nextAvailableClientID := by
  unfold serverOnReceiveNewData
  by_cases h1 : headerSize ≤ data.length
  · rw [if_pos h1]
    by_cases h2 : maxPayloadBytes < (peakHeader data).payloadSize
    · rw [if_pos h2]
    · rw [if_neg h2]
      by_cases h3 : (peakHeader data).payloadSize + headerSize +
          getFooterLength (peakHeader data) ≤ data.length
      · rw [if_pos h3]
        repeat'
          first
            | rfl
            | exact counter_serverDisconnectClient _ _ _
            | exact counter_srvHandleReconnect _ _ _ _ _
            | split
            | dsimp only
      · rw [if_neg h3]
  · rw [if_neg h1]

theorem applyOp_counter (s : ServerSt) (op : ServerOp) :
    (applyOp s op).nextAvailableClientID = s.nextAvailableClientID ∨
    (applyOp s op).nextAvailableClientID =
      (s.nextAvailableClientID + 1) % 4294967296 := by
  cases op with
  | opAccept addr ok =>
      unfold applyOp acceptPeer
      dsimp only
      split
      · split
        · split
          · right
            rfl
          · left
            exact counter_serverDisconnectClient _ _ _
        · left
          exact counter_serverDisconnectClient _ _ _
      · left
        exact counter_serverDisconnectClient _ _ _
  | opReconnect k oldID =>
      left
      exact counter_serverOnReceiveNewData _ _ _ _ _

theorem runOps_issued (ops : List ServerOp) : ∀ s : ServerSt,
    s.nextAvailableClientID + (runOps s ops).2.length ≤ 4294967296 →
    (runOps s ops).2 =
      List.range' s.nextAvailableClientID (runOps s ops).2.length := by
  induction ops with
  | nil =>
      intro s _
      rfl
  | cons op ops ih =>
      intro s h
      rcases applyOp_counter s op with hc | hc
      · have hrw : runOps s (op :: ops) = runOps (applyOp s op) ops := by
          simp only [runOps, if_pos hc]
        rw [hrw] at h ⊢
        rw [← hc] at h ⊢
        exact ih (applyOp s op) h
      · have hne : ¬(applyOp s op).nextAvailableClientID =
            s.nextAvailableClientID := by
          rw [hc]
          omega
        have hrw : runOps s (op :: ops) = ((runOps (applyOp s op) ops).1,
            s.nextAvailableClientID :: (runOps (applyOp s op) ops).2) := by
          simp only [runOps, if_neg hne]
        rw [hrw] at h ⊢
        dsimp only at h ⊢
        rw [List.length_cons] at h ⊢
        rw [List.range'_succ]
        congr 1
        by_cases hend : s.nextAvailableClientID + 1 = 4294967296
        · have hlen : (runOps (applyOp s op) ops).2.length = 0 := by
            omega
          rw [List.length_eq_zero.mp hlen]
          rfl
        · have hc' : (applyOp s op).nextAvailableClientID =
              s.nextAvailableClientID + 1 := by
            rw [hc]
            omega
          have h' : (applyOp s op).nextAvailableClientID +
              (runOps (applyOp s op) ops).2.length ≤ 4294967296 := by
            rw [hc']
            omega
          have hres := ih (applyOp s op) h'
          rw [hc'] at hres
          exact hres

/-- C6 (amended). From a fresh server, as long as fewer than 2^32 ids have
been issued, the provisional ids issued to successively accepted peers are
exactly 1, 2, 3, ...: the list is `range' 1 len`, hence strictly
increasing, the first accepted peer receives id 1 and the i-th receives
1 + i; reconnect re-keying never moves the issuance counter. The proviso
is necessary: the counter is an unsigned 32-bit increment and wraps. -/
theorem c6_monotonicIDs (ops : List ServerOp)
    (h : (runOps freshServer ops).2.length < 4294967296) :
    (runOps freshServer ops).2 =
      List.range' 1 (runOps freshServer ops).2.length ∧
    List.Pairwise (· < ·) (runOps freshServer ops).2 ∧
    ∀ i, ∀ hi : i < (runOps freshServer ops).2.length,
      (runOps freshServer ops).2.get ⟨i, hi⟩ = 1 + i := by
  have hr := runOps_issued ops freshServer (by
    show 1 + (runOps freshServer ops).2.length ≤ 4294967296
    omega)
  refine ⟨hr, ?_, ?_⟩
  · rw [hr]
    rw [List.pairwise_iff_getElem]
    intro i j hi hj hij
    rw [List.length_range'] at hi hj
    rw [List.getElem_range', List.getElem_range']
    omega
  · intro i hi
    have hfresh : freshServer.nextAvailableClientID = 1 := rfl
    set n := (runOps freshServer ops).2.length with hn
    simp only [List.get_eq_getElem, hr, hfresh, List.getElem_range']
    omega

/-- Operation list for the C6 witness: two socket-layer accepts around a
reconnect. -/
def c6WitnessOps : List ServerOp :=
  [ServerOp.opAccept ⟨2, 5, 80⟩ true, ServerOp.opReconnect 1 5,
    ServerOp.opAccept ⟨2, 5, 80⟩ true]

/-- C6 witness: two accepts around a reconnect issue exactly [1, 2]. -/
theorem c6_monotonicIDs_witness :
    (runOps freshServer c6WitnessOps).2.length < 4294967296 ∧
    ((runOps freshServer c6WitnessOps).2 =
        List.range' 1 (runOps freshServer c6WitnessOps).2.length ∧
      List.Pairwise (· < ·) (runOps freshServer c6WitnessOps).2 ∧
      ∀ i, ∀ hi : i < (runOps freshServer c6WitnessOps).2.length,
        (runOps freshServer c6WitnessOps).2.get ⟨i, hi⟩ = 1 + i) :=
  ⟨by decide, c6_monotonicIDs c6WitnessOps (by decide)⟩

theorem applyOp_accept_free (s : ServerSt) (addr : CrossSockAddressT)
    (h1 : s.canConnectList = []) (h2 : s.props.useWhitelist = false) :
    (applyOp s (ServerOp.opAccept addr true)).nextAvailableClientID =
      (s.nextAvailableClientID + 1) % 4294967296 ∧
    (applyOp s (ServerOp.opAccept addr true)).canConnectList = [] ∧
    (applyOp s (ServerOp.opAccept addr true)).props = s.props := by
  unfold applyOp acceptPeer
  simp [h1, h2, policyLookup]

theorem replicate_accept_issued (addr : CrossSockAddressT) (n : Nat) :
    ∀ s : ServerSt, s.canConnectList = [] →
      s.props.useWhitelist = false →
      s.nextAvailableClientID < 4294967296 →
      (runOps s (List.replicate n (ServerOp.opAccept addr true))).2 =
        (List.range n).map
          (fun i => (s.nextAvailableClientID + i) % 4294967296) := by
  induction n with
  | zero =>
      intro s _ _ _
      rfl
  | succ n ih =>
      intro s h1 h2 h3
      obtain ⟨hc, hl, hp⟩ := applyOp_accept_free s addr h1 h2
      have hne : ¬(applyOp s
          (ServerOp.opAccept addr true)).nextAvailableClientID =
          s.nextAvailableClientID := by
        rw [hc]
        omega
      rw [List.replicate_succ]
      have hrw : runOps s (ServerOp.opAccept addr true ::
          List.replicate n (ServerOp.opAccept addr true)) =
          ((runOps (applyOp s (ServerOp.opAccept addr true))
              (List.replicate n (ServerOp.opAccept addr true))).1,
            s.nextAvailableClientID ::
              (runOps (applyOp s (ServerOp.opAccept addr true))
                (List.replicate n (ServerOp.opAccept addr true))).2) := by
        simp only [runOps, if_neg hne]
      rw [hrw]
      dsimp only
      have ih' := ih (applyOp s (ServerOp.opAccept addr true)) hl
        (by rw [hp]; exact h2) (by rw [hc]; omega)
      rw [ih', hc]
      rw [List.range_succ_eq_map, List.map_cons, List.map_map]
      have hfun : (fun i => ((s.nextAvailableClientID + 1) % 4294967296 + i)
          % 4294967296) =
          (fun i => (s.nextAvailableClientID + (i + 1)) % 4294967296) :=
        funext fun i => by omega
      rw [hfun]
      have hz : s.nextAvailableClientID =
          (s.nextAvailableClientID + 0) % 4294967296 := by
        omega
      rw [← hz]
      rfl

/-- C6 counterexample for the unamended claim: the issuance counter is an
unsigned 32-bit increment, so over a long enough run of accepted peers the
provisional ids wrap (… 4294967295, then 0) and are not strictly
increasing. -/
theorem c6_counterexample :
    ¬ List.Pairwise (· < ·)
      (runOps freshServer (List.replicate 4294967296
        (ServerOp.opAccept ⟨2, 5, 80⟩ true))).2 := by
  rw [replicate_accept_issued ⟨2, 5, 80⟩ 4294967296 freshServer rfl rfl
    (by decide)]
  intro hpair
  rw [List.pairwise_iff_getElem] at hpair
  have hlen : ((List.range 4294967296).map
      (fun i => (freshServer.nextAvailableClientID + i) %
        4294967296)).length = 4294967296 := by
    rw [List.length_map, List.length_range]
  have hlt := hpair 4294967294 4294967295 (by omega) (by omega) (by omega)
  rw [List.getElem_map, List.getElem_map, List.getElem_range,
    List.getElem_range] at hlt
  have hfresh : freshServer.nextAvailableClientID = 1 := rfl
  rw [hfresh] at hlt
  omega
